import Mathlib

/-!
# Kausality admission core: a shallow embedding

A shallow embedding of the drift-detection admission core of the
kausality repository, together with theorems settling the frozen claims
about it.

Conventions of the embedding:
* Go strings are Lean `String`; byte strings are `List Nat` (one entry
  per byte, each below 256); ASCII text is converted byte-per-code-point.
* Go `int64` is `Int`; machine truncation never matters for the fields
  involved (generations, timestamps).
* `time.Time` values are instants on an abstract integer clock; only
  comparisons are used by the code under study.
* The store and HTTP dependencies are passed as explicit outcome values
  (`ResolveOutcome`, notification emission booleans), matching the
  points where the Go code consumes them.
* Components whose implementation files are absent from the tree
  (lifecycle detector, parent resolver internals, approval checker,
  trace propagator, rich admission pipeline, notification sender) are
  modelled from the specification, as recorded in their doc comments;
  everything else is translated from the Go sources.
-/

namespace Kausality

/-- Bytes of an ASCII string, modelled as one byte per code point
(all strings fed to the hash functions in this development are ASCII). -/
def strBytes (s : String) : List Nat := s.data.map Char.toNat

namespace SHA256

/-- The word modulus 2^32. -/
def w32 : Nat := 4294967296

/-- 32-bit right rotation. -/
def rotr (n x : Nat) : Nat := ((x >>> n) ||| (x <<< (32 - n))) % w32

/-- 32-bit addition. -/
def add32 (a b : Nat) : Nat := (a + b) % w32

/-- 32-bit complement. -/
def not32 (x : Nat) : Nat := x ^^^ 4294967295

/-- Small sigma-0 of the message schedule. -/
def smallSigma0 (x : Nat) : Nat := (rotr 7 x) ^^^ (rotr 18 x) ^^^ (x >>> 3)

/-- Small sigma-1 of the message schedule. -/
def smallSigma1 (x : Nat) : Nat := (rotr 17 x) ^^^ (rotr 19 x) ^^^ (x >>> 10)

/-- Big sigma-0 of the compression function. -/
def bigSigma0 (x : Nat) : Nat := (rotr 2 x) ^^^ (rotr 13 x) ^^^ (rotr 22 x)

/-- Big sigma-1 of the compression function. -/
def bigSigma1 (x : Nat) : Nat := (rotr 6 x) ^^^ (rotr 11 x) ^^^ (rotr 25 x)

/-- Choice function of the compression function. -/
def ch (x y z : Nat) : Nat := (x &&& y) ^^^ (not32 x &&& z)

/-- Majority function of the compression function. -/
def maj (x y z : Nat) : Nat := (x &&& y) ^^^ (x &&& z) ^^^ (y &&& z)

/-- The 64 round constants. -/
def K : List Nat :=
  [1116352408, 1899447441, 3049323471, 3921009573, 961987163, 1508970993,
   2453635748, 2870763221, 3624381080, 310598401, 607225278, 1426881987,
   1925078388, 2162078206, 2614888103, 3248222580, 3835390401, 4022224774,
   264347078, 604807628, 770255983, 1249150122, 1555081692, 1996064986,
   2554220882, 2821834349, 2952996808, 3210313671, 3336571891, 3584528711,
   113926993, 338241895, 666307205, 773529912, 1294757372, 1396182291,
   1695183700, 1986661051, 2177026350, 2456956037, 2730485921, 2820302411,
   3259730800, 3345764771, 3516065817, 3600352804, 4094571909, 275423344,
   430227734, 506948616, 659060556, 883997877, 958139571, 1322822218,
   1537002063, 1747873779, 1955562222, 2024104815, 2227730452, 2361852424,
   2428436474, 2756734187, 3204031479, 3329325298]

/-- Initial hash value. -/
def H0 : List Nat :=
  [1779033703, 3144134277, 1013904242, 2773480762,
   1359893119, 2600822924, 528734635, 1541459225]

/-- Big-endian bytes of `v`, width `n` bytes. -/
def beBytes : Nat → Nat → List Nat
  | 0, _ => []
  | n + 1, v => beBytes n (v >>> 8) ++ [v % 256]

/-- Number of zero bytes inserted by SHA-256 padding. -/
def zeroPad (l : Nat) : Nat := (64 - (l + 9) % 64) % 64

/-- SHA-256 padding of a byte string. -/
def pad (msg : List Nat) : List Nat :=
  msg ++ [0x80] ++ List.replicate (zeroPad msg.length) 0 ++ beBytes 8 (8 * msg.length)

/-- Big-endian 32-bit words of a byte string. -/
def toWords : List Nat → List Nat
  | a :: b :: c :: d :: rest => (((a * 256 + b) * 256 + c) * 256 + d) :: toWords rest
  | _ => []

/-- Split a byte string into 64-byte blocks; fuel-based structural
recursion so that the kernel can evaluate it, `fuel = l.length` always
suffices. -/
def chunksAux : Nat → List Nat → List (List Nat)
  | 0, _ => []
  | _, [] => []
  | fuel + 1, x :: xs => ((x :: xs).take 64) :: chunksAux fuel ((x :: xs).drop 64)

/-- Split a byte string into 64-byte blocks. -/
def chunks (l : List Nat) : List (List Nat) := chunksAux l.length l

/-- Extend a 16-word block with `k` message-schedule words. -/
def extendWords (w : List Nat) : Nat → List Nat
  | 0 => w
  | k + 1 =>
    let i := w.length
    extendWords
      (w ++ [add32 (add32 (smallSigma1 (w.getD (i - 2) 0)) (w.getD (i - 7) 0))
               (add32 (smallSigma0 (w.getD (i - 15) 0)) (w.getD (i - 16) 0))]) k

/-- One compression round; the state is the 8-tuple (a,b,c,d,e,f,g,h) as a list. -/
def round (st : List Nat) (kw : Nat × Nat) : List Nat :=
  match st with
  | [a, b, c, d, e, f, g, h] =>
    let t1 := add32 (add32 (add32 h (bigSigma1 e)) (add32 (ch e f g) kw.1)) kw.2
    let t2 := add32 (bigSigma0 a) (maj a b c)
    [add32 t1 t2, a, b, c, add32 d t1, e, f, g]
  | _ => st

/-- Compress one 64-byte block into the running hash (8 words). -/
def compress (h : List Nat) (block : List Nat) : List Nat :=
  let ws := extendWords (toWords block) 48
  let st := (K.zip ws).foldl (fun s kw => round s kw) h
  (h.zip st).map (fun p => add32 p.1 p.2)

/-- SHA-256 digest (32 bytes) of a byte string. -/
def sha256 (msg : List Nat) : List Nat :=
  (((chunks (pad msg)).foldl compress H0).map (beBytes 4)).flatten

/-- Lower-case hex character for a nibble. -/
def hexChar (n : Nat) : Char := if n < 10 then Char.ofNat (48 + n) else Char.ofNat (87 + n)

/-- Lower-case hex string of a byte string. -/
def toHex (bytes : List Nat) : String :=
  ⟨(bytes.map (fun b => [hexChar (b / 16), hexChar (b % 16)])).flatten⟩

/-- Hex-encoded SHA-256 digest (64 hex characters). -/
def hexDigest (msg : List Nat) : String := toHex (sha256 msg)

end SHA256

namespace Controller

/-- Modelled from the spec: §4.1 identity hashing. The file defining
`pkg/controller.HashUsername` is absent from the tree; the spec requires a
deterministic truncated cryptographic digest of the principal name, five hex
characters wide, so the model truncates the hex SHA-256 digest. -/
def HashUsername (username : String) : String :=
  (SHA256.hexDigest (strBytes username)).take 5

/-- Modelled from the spec: §4.1. `pkg/controller.ContainsHash`, absent from
the tree, is list membership of a hash in a hash list. -/
def ContainsHash (hashes : List String) (h : String) : Bool := hashes.contains h

/-- Modelled from the spec: §4.1. `pkg/controller.Intersect`, absent from the
tree, computes the intersection of two hash lists preserving the order of the
first. -/
def Intersect (a b : List String) : List String := a.filter (fun x => b.contains x)

end Controller

namespace Drift

/-- One status condition of the parent (type and status strings are all the
lifecycle classifier reads). -/
structure Condition where
  type : String
  status : String
deriving DecidableEq, Repr

/-- Reference to the controlling parent (drift.ParentRef). -/
structure ParentRef where
  apiVersion : String := ""
  kind : String := ""
  nspace : String := ""
  name : String := ""
deriving DecidableEq, Repr

/-- Materialised parent state (drift.ParentState). The deletion timestamp is
modelled by its presence, the only property the code reads. -/
structure ParentState where
  ref : ParentRef := {}
  generation : Int := 0
  observedGeneration : Int := 0
  hasObservedGeneration : Bool := false
  hasDeletionTimestamp : Bool := false
  isInitialized : Bool := false
  conditions : List Condition := []
  controllers : List String := []
  controllerManager : String := ""
deriving DecidableEq, Repr

/-- Lifecycle phase of a parent (drift.LifecyclePhase); the source constant
for the post-initialization phase is named PhaseReady and is rendered as
"Initialized" in audit annotations. -/
inductive LifecyclePhase
  | initializing
  | ready
  | deleting
deriving DecidableEq, Repr

/-- Modelled from the spec: §4.3 lifecycle classifier. The file defining
`drift.LifecycleDetector.DetectPhase` is absent from the tree; the phase is
Deleting when the deletion timestamp is set, else Ready when any
initialization signal (phase annotation, Initialized or Ready condition with
status True, observed generation) is present, else Initializing. The nil-state
result (Ready) is fixed by TestLifecycleDetector_DetectPhase. -/
def DetectPhase : Option ParentState → LifecyclePhase
  | none => .ready
  | some ps =>
    if ps.hasDeletionTimestamp then .deleting
    else if ps.isInitialized
      || ps.conditions.any (fun c => c.type == "Initialized" && c.status == "True")
      || ps.conditions.any (fun c => c.type == "Ready" && c.status == "True")
      || ps.hasObservedGeneration then .ready
    else .initializing

/-- Result of drift detection (drift.DriftResult). Unset Go fields carry their
zero values; the zero LifecyclePhase string is modelled as `none`. -/
structure DriftResult where
  allowed : Bool := false
  driftDetected : Bool := false
  reason : String := ""
  lifecyclePhase : Option LifecyclePhase := none
  parentRef : Option ParentRef := none
deriving DecidableEq, Repr

/-- Reason string of the expected-change outcome of checkGeneration. -/
def expectedChangeReason (g og : Int) : String :=
  s!"expected change: parent generation ({g}) != observedGeneration ({og})"

/-- Reason string of the drift outcome of checkGeneration. -/
def driftDetectedReason (g og : Int) : String :=
  s!"drift detected: parent generation ({g}) == observedGeneration ({og})"

/-- Detector.checkLifecycle from pkg/drift/detector.go: classifies the phase,
returning the partial result and whether the caller must return immediately. -/
def checkLifecycle (ps : ParentState) : DriftResult × Bool :=
  let phase := DetectPhase (some ps)
  let result : DriftResult :=
    { allowed := false, lifecyclePhase := some phase, parentRef := some ps.ref }
  match phase with
  | .deleting =>
    ({ result with allowed := true, reason := "parent is being deleted (cleanup phase)" }, true)
  | .initializing =>
    ({ result with allowed := true, reason := "parent is initializing" }, true)
  | .ready => (result, false)

/-- checkGeneration from pkg/drift/detector.go: compares generation with
observedGeneration; called only when the request comes from the controller. -/
def checkGeneration (result : DriftResult) (ps : ParentState) : DriftResult :=
  if ps.generation ≠ ps.observedGeneration then
    { result with
        allowed := true
        driftDetected := false
        reason := expectedChangeReason ps.generation ps.observedGeneration }
  else
    { result with
        allowed := true
        driftDetected := true
        reason := driftDetectedReason ps.generation ps.observedGeneration }

/-- IsControllerByHash from pkg/drift/detector.go: decides whether the request
comes from the controller using user hash tracking; returns
(isController, canDetermine). -/
def IsControllerByHash (ps : ParentState) (username : String) (childUpdaters : List String) :
    Bool × Bool :=
  let userHash := Controller.HashUsername username
  if ps.controllers.length > 0 then
    if childUpdaters.length > 0 then
      let intersection := Controller.Intersect childUpdaters ps.controllers
      if intersection.length > 0 then
        (Controller.ContainsHash intersection userHash, true)
      else
        (Controller.ContainsHash ps.controllers userHash, true)
    else
      (Controller.ContainsHash ps.controllers userHash, true)
  else
    if childUpdaters.length == 1 then
      (userHash == childUpdaters.headD "", true)
    else if childUpdaters.length == 0 then
      (true, true)
    else
      (false, false)

/-- Outcome of ParentResolver.ResolveParent as consumed by Detector.Detect:
a store failure (error), logical absence of a controlling parent (nil state),
or a resolved parent state. -/
inductive ResolveOutcome
  | failed (msg : String)
  | noParent
  | parent (ps : ParentState)

/-- Detector.Detect from pkg/drift/detector.go, with the resolver outcome
passed explicitly. Every Go return path of Detect carries a nil error, so the
embedding returns the DriftResult alone; `DetectErr` records the nil error. -/
def Detect (res : ResolveOutcome) (username : String) (childUpdaters : List String) :
    DriftResult :=
  match res with
  | .failed msg => { allowed := false, reason := s!"failed to resolve parent: {msg}" }
  | .noParent => { allowed := true, reason := "no controller owner reference" }
  | .parent ps =>
    let rd := checkLifecycle ps
    if rd.2 then rd.1
    else
      let ic := IsControllerByHash ps username childUpdaters
      if !ic.2 then
        { rd.1 with
            allowed := true
            driftDetected := false
            reason := "cannot determine controller identity (multiple updaters, no parent controllers annotation)" }
      else if !ic.1 then
        { rd.1 with
            allowed := true
            driftDetected := false
            reason := s!"change by different actor (hash {Controller.HashUsername username})" }
      else checkGeneration rd.1 ps

/-- The error component of Detector.Detect: nil on every return path of the
Go source, including the store-failure path. -/
def DetectErr (_ : ResolveOutcome) (_ : String) (_ : List String) : Option String := none

/-- Modelled from the spec: state-based drift detection. The file defining
`drift.Detector.DetectFromState` is absent from the tree; TestDetectFromState
fixes its behaviour: nil state is allowed without drift, otherwise the
lifecycle check runs and, when it does not terminate the decision, the
generation comparison does. -/
def DetectFromState : Option ParentState → DriftResult
  | none => { allowed := true }
  | some ps =>
    let rd := checkLifecycle ps
    if rd.2 then rd.1 else checkGeneration rd.1 ps

end Drift

namespace Approval

/-- Reference to the child under decision (approval.ChildRef). -/
structure ChildRef where
  apiVersion : String
  kind : String
  name : String
deriving DecidableEq, Repr

/-- Approval mode (approval.Mode): once, generation, always. -/
inductive Mode
  | once
  | generation
  | always
deriving DecidableEq, Repr

/-- An approval entry on the parent (approval.Approval). -/
structure ApprovalEntry where
  apiVersion : String := ""
  kind : String
  name : String
  generation : Int := 0
  mode : Mode
deriving DecidableEq, Repr

/-- A rejection entry on the parent (approval.Rejection); the generation is
optional, `none` when unspecified. -/
structure RejectionEntry where
  apiVersion : String := ""
  kind : String
  name : String
  generation : Option Int := none
  reason : String := ""
deriving DecidableEq, Repr

/-- Modelled from the spec: §4.6 matching. The approval checker file is
absent from the tree; an entry matches the child when its kind equals the
child kind and its name equals the child name or is the wildcard "*". -/
def matchesChild (kind name : String) (child : ChildRef) : Bool :=
  kind == child.kind && (name == child.name || name == "*")

/-- Modelled from the spec: §4.6 approval validity. Modes once and generation
require the entry generation to equal the current parent generation; always
matches any generation. -/
def approvalValid (a : ApprovalEntry) (parentGen : Int) : Bool :=
  match a.mode with
  | .always => true
  | .once => a.generation == parentGen
  | .generation => a.generation == parentGen

/-- Modelled from the spec: §4.6 rejection validity. A specified generation
must equal the current parent generation. -/
def rejectionValid (r : RejectionEntry) (parentGen : Int) : Bool :=
  match r.generation with
  | none => true
  | some g => g == parentGen

/-- First approval entry matching the child and valid at the parent
generation. -/
def findApproval (entries : List ApprovalEntry) (child : ChildRef) (parentGen : Int) :
    Option ApprovalEntry :=
  entries.find? (fun a => matchesChild a.kind a.name child && approvalValid a parentGen)

/-- First rejection entry matching the child and valid at the parent
generation. -/
def findRejection (entries : List RejectionEntry) (child : ChildRef) (parentGen : Int) :
    Option RejectionEntry :=
  entries.find? (fun r => matchesChild r.kind r.name child && rejectionValid r parentGen)

/-- Result of the approval/rejection check (approval.Result). -/
structure CheckResult where
  approved : Bool := false
  rejected : Bool := false
  matchedApproval : Option ApprovalEntry := none
  matchedRejection : Option RejectionEntry := none
  reason : String := ""
deriving DecidableEq, Repr

/-- Modelled from the spec: §4.6 resolution, rejection wins over approval;
the matched entry and a human-readable reason are returned. The checker file
is absent from the tree; TestChecker_Check fixes the outcomes. -/
def check (approvals : List ApprovalEntry) (rejections : List RejectionEntry)
    (child : ChildRef) (parentGen : Int) : CheckResult :=
  match findRejection rejections child parentGen with
  | some r =>
    { rejected := true, matchedRejection := some r, reason := r.reason }
  | none =>
    match findApproval approvals child parentGen with
    | some a =>
      { approved := true, matchedApproval := some a
        reason := s!"approved for {a.kind}/{a.name}" }
    | none => { reason := "unresolved" }

end Approval

namespace Trace

/-- Modelled from the spec: §4.9 origin decision. The trace propagator file is
absent from the tree; the branch structure on observed-generation presence and
on controller determinability is fixed by TestPropagator_isOrigin: with an
observed generation present, an undeterminable controller identity extends the
trace (lenient) while a determined non-controller or a stable parent starts a
fresh origin; without an observed generation, an undeterminable identity
starts a fresh origin (safer default) and otherwise the controller extends. -/
def isOrigin (ps? : Option Drift.ParentState) (username : String)
    (childUpdaters : List String) : Bool :=
  match ps? with
  | none => true
  | some ps =>
    let ic := Drift.IsControllerByHash ps username childUpdaters
    if ps.hasObservedGeneration then
      if !ic.2 then false
      else if !ic.1 then true
      else ps.generation == ps.observedGeneration
    else
      if !ic.2 then true
      else !ic.1

end Trace

namespace Callback

/-- Reference to a Kubernetes object (callback/v1alpha1.ObjectReference); the
fields the ID generators read. -/
structure ObjectReference where
  apiVersion : String := ""
  kind : String := ""
  nspace : String := ""
  name : String := ""
deriving DecidableEq, Repr

/-- hashObjectRef of the first source variant: each of the four fields
followed by a null-byte separator, via a loop over the field list. -/
def refStreamLoop (r : ObjectReference) : List Nat :=
  [r.apiVersion, r.kind, r.nspace, r.name].foldl
    (fun acc field => acc ++ strBytes field ++ [0]) []

/-- GenerateDriftID, first source variant (hashObjectRef loop on parent and
child, then the spec diff): 16-hex prefix of the SHA-256 digest. -/
def GenerateDriftID (parent child : ObjectReference) (specDiff : List Nat) : String :=
  (SHA256.hexDigest (refStreamLoop parent ++ refStreamLoop child ++ specDiff)).take 16

/-- GenerateResolutionID, first source variant: hashObjectRef loop on parent
and child only. -/
def GenerateResolutionID (parent child : ObjectReference) : String :=
  (SHA256.hexDigest (refStreamLoop parent ++ refStreamLoop child)).take 16

/-- The unrolled reference stream of the second source variant used by its
GenerateDriftID: every field followed by a null-byte separator. -/
def refStreamSep (r : ObjectReference) : List Nat :=
  strBytes r.apiVersion ++ [0] ++ strBytes r.kind ++ [0] ++
  strBytes r.nspace ++ [0] ++ strBytes r.name ++ [0]

/-- The unrolled child reference stream of the second source variant of
GenerateResolutionID: no separator after the final name field. -/
def refStreamNoTrailingSep (r : ObjectReference) : List Nat :=
  strBytes r.apiVersion ++ [0] ++ strBytes r.kind ++ [0] ++
  strBytes r.nspace ++ [0] ++ strBytes r.name

/-- GenerateDriftID, second source variant (unrolled writes). -/
def GenerateDriftID2 (parent child : ObjectReference) (specDiff : List Nat) : String :=
  (SHA256.hexDigest (refStreamSep parent ++ refStreamSep child ++ specDiff)).take 16

/-- GenerateResolutionID, second source variant (unrolled writes, no
separator after the child name). -/
def GenerateResolutionID2 (parent child : ObjectReference) : String :=
  (SHA256.hexDigest (refStreamSep parent ++ refStreamNoTrailingSep child)).take 16

/-- DefaultTTL from the Tracker source: 10 minutes, in nanoseconds. -/
def DefaultTTL : Int := 600000000000

/-- Deduplication tracker (callback.Tracker): identifier to expiration time,
the Go map modelled as an association list with unique keys; the clock is
passed at each call in place of nowFunc. -/
structure Tracker where
  ids : List (String × Int) := []
  ttl : Int := DefaultTTL
deriving DecidableEq, Repr

/-- Map lookup on the association list. -/
def lookupId (m : List (String × Int)) (id : String) : Option Int :=
  (m.find? (fun p => p.1 == id)).map (fun p => p.2)

/-- Map insert-or-replace on the association list. -/
def insertId (m : List (String × Int)) (id : String) (v : Int) : List (String × Int) :=
  match m with
  | [] => [(id, v)]
  | p :: rest => if p.1 == id then (id, v) :: rest else p :: insertId rest id v

/-- Map removal on the association list. -/
def eraseId (m : List (String × Int)) (id : String) : List (String × Int) :=
  m.filter (fun p => !(p.1 == id))

/-- Tracker.Track from the source: returns true when the ID was new or its
entry expired (and records a fresh expiration), false while the ID is live. -/
def Tracker.track (t : Tracker) (now : Int) (id : String) : Bool × Tracker :=
  match lookupId t.ids id with
  | some expiry =>
    if now < expiry then (false, t)
    else (true, { t with ids := insertId t.ids id (now + t.ttl) })
  | none => (true, { t with ids := insertId t.ids id (now + t.ttl) })

/-- Tracker.IsTracked from the source: the ID is present and not expired. -/
def Tracker.isTracked (t : Tracker) (now : Int) (id : String) : Bool :=
  match lookupId t.ids id with
  | some expiry => now < expiry
  | none => false

/-- Tracker.Remove from the source. -/
def Tracker.remove (t : Tracker) (id : String) : Tracker :=
  { t with ids := eraseId t.ids id }

/-- Tracker.Cleanup from the source: drops entries whose expiry is at or
before now. -/
def Tracker.cleanup (t : Tracker) (now : Int) : Tracker :=
  { t with ids := t.ids.filter (fun p => now < p.2) }

/-- Phase of a drift report (v1alpha1.DriftReportPhase). -/
inductive ReportPhase
  | detected
  | resolved
deriving DecidableEq, Repr

/-- Modelled from the spec: §4.11 deduplication in Sender.Send, whose file is
absent from the tree. A Detected report is sent only when the tracker accepts
its identifier as new; a Resolved report is always sent and clears the
tracker entry (fixed by TestSender_Deduplication,
TestSender_NoDeduplicationForResolved and TestSender_MarkResolved). Returns
whether an outbound notification is emitted, and the new tracker state. -/
def send (t : Tracker) (now : Int) (id : String) (phase : ReportPhase) : Bool × Tracker :=
  match phase with
  | .detected => t.track now id
  | .resolved => (true, t.remove id)

end Callback

namespace Admission

/-- Admission operation (admissionv1.Operation); connect stands for any
operation other than CREATE, UPDATE, DELETE. -/
inductive Operation
  | create
  | update
  | delete
  | connect
deriving DecidableEq, Repr

/-- Outcome of Handler.parseObject: parsed, or failed with a message. -/
inductive ParseOutcome
  | ok
  | failed (msg : String)

/-- An admission response as built by the phase-1 handler: allowed flag, HTTP
status code when built by admission.Errored, and the status message or
reason. -/
structure AdmissionResponse where
  allowed : Bool
  code : Option Nat := none
  message : String := ""
deriving DecidableEq, Repr

/-- admission.Allowed of controller-runtime: an allowed response carrying the
reason. -/
def allowedResponse (reason : String) : AdmissionResponse :=
  { allowed := true, message := reason }

/-- admission.Errored of controller-runtime: a denied response carrying an
HTTP status code and the error text. -/
def erroredResponse (code : Nat) (msg : String) : AdmissionResponse :=
  { allowed := false, code := some code, message := msg }

/-- Handler.Handle from pkg/admission/handler.go (the phase-1
logging-only handler), with the parse and resolver outcomes passed
explicitly at the points where the Go code consumes its dependencies.
Operations other than CREATE, UPDATE, DELETE are allowed untouched; a parse
failure yields HTTP 400; a non-nil detector error would yield HTTP 500, but
`Drift.DetectErr` is nil on every path; otherwise the result is always
allowed, carrying the detector reason. -/
def Handle (op : Operation) (parse : ParseOutcome) (res : Drift.ResolveOutcome)
    (username : String) (childUpdaters : List String) : AdmissionResponse :=
  if op ≠ .create ∧ op ≠ .update ∧ op ≠ .delete then
    allowedResponse "operation not relevant for drift detection"
  else
    match parse with
    | .failed msg => erroredResponse 400 s!"failed to parse object: {msg}"
    | .ok =>
      let result := Drift.Detect res username childUpdaters
      match Drift.DetectErr res username childUpdaters with
      | some msg => erroredResponse 500 s!"drift detection failed: {msg}"
      | none => allowedResponse result.reason

/-- Effective mode (log or enforce). -/
inductive Mode
  | log
  | enforce
deriving DecidableEq, Repr

/-- Audit string of a mode. -/
def modeString : Mode → String
  | .log => "log"
  | .enforce => "enforce"

/-- A freeze entry on the parent. -/
structure Freeze where
  user : String := ""
  message : String := ""
deriving DecidableEq, Repr

/-- Audit string of a lifecycle phase: PhaseReady is rendered as
"Initialized" (fixed by TestAuditAnnotations_DriftDetectedLogMode). -/
def phaseAuditString : Drift.LifecyclePhase → String
  | .initializing => "Initializing"
  | .ready => "Initialized"
  | .deleting => "Deleting"

/-- Audit string of a boolean. -/
def boolString (b : Bool) : String := if b then "true" else "false"

/-- The audit annotation set of an admission response; an absent key is
`none`. -/
structure AuditAnn where
  decision : Option String := none
  drift : Option String := none
  mode : Option String := none
  lifecyclePhase : Option String := none
  driftResolution : Option String := none
  trace : Option String := none
deriving DecidableEq, Repr

/-- A full admission response of the decision pipeline: decision, status
message, warnings, audit annotations, and whether a JSON patch (trace and
updater merge) is attached. -/
structure PipelineResponse where
  allowed : Bool
  message : String := ""
  warnings : List String := []
  audit : AuditAnn := {}
  hasPatch : Bool := false
deriving DecidableEq, Repr

/-- Denial message of a frozen parent, carrying the freeze message. -/
def freezeDenyMessage (f : Freeze) : String :=
  s!"parent is frozen by {f.user}: {f.message}"

/-- Warning text of an allowed-with-warning drift decision. -/
def driftWarning (reason : String) : String := s!"drift detected: {reason}"

/-- Audit value of the drift resolution when drift is detected. -/
def resolutionString (chk : Approval.CheckResult) : String :=
  if chk.rejected then "rejected"
  else if chk.approved then "approved"
  else "unresolved"

/-- Modelled from the spec: §4.10 decision pipeline, steps 6 to 11, whose
implementation file is absent from the tree (pkg/admission/audit_test.go
exercises it). Inputs are the detector result, the freeze entry of the
parent if any, the resolved mode, the approval/rejection outcome and the
serialised trace; the operation is the admitted mutation. Freeze is
evaluated first (after drift detection): it denies with the freeze message
and audits decision, drift and lifecycle phase but not mode. Otherwise the
mode is audited, drift resolution is audited when drift was detected, and
the final decision follows step 9: rejected drift or unresolved drift in
enforce mode is denied; drift surviving in log mode is allowed with a
warning; everything else is allowed. Trace and patch are attached on
allowed CREATE and UPDATE; on DELETE the trace only reaches the audit
annotations (fixed by TestAuditAnnotations_DeleteHasTrace). -/
def pipelineDecision (op : Operation) (dr : Drift.DriftResult) (freeze : Option Freeze)
    (mode : Mode) (chk : Approval.CheckResult) (traceJSON : String) : PipelineResponse :=
  let auditBase : AuditAnn :=
    { drift := some (boolString dr.driftDetected)
      lifecyclePhase := dr.lifecyclePhase.map phaseAuditString }
  match freeze with
  | some f =>
    { allowed := false
      message := freezeDenyMessage f
      audit := { auditBase with decision := some "denied" } }
  | none =>
    let auditM := { auditBase with mode := some (modeString mode) }
    let auditR :=
      if dr.driftDetected then
        { auditM with driftResolution := some (resolutionString chk) }
      else auditM
    let deny := dr.driftDetected &&
      (chk.rejected || (!chk.approved && mode == .enforce))
    if deny then
      { allowed := false
        message := driftWarning dr.reason
        audit := { auditR with decision := some "denied" } }
    else
      let warn := dr.driftDetected && mode == .log
      { allowed := true
        message := dr.reason
        warnings := if warn then [driftWarning dr.reason] else []
        audit :=
          { auditR with
              decision := some (if warn then "allowed-with-warning" else "allowed")
              trace := some traceJSON }
        hasPatch := op ≠ .delete }

end Admission

/-! ## Theorems settling the claims -/

/-- C10: on a nil parent state, the lifecycle detector and the state-based
drift detector are total and non-failing: DetectPhase of nil is the
Ready/Initialized phase, and DetectFromState of nil is an allowed result
with no drift detected. -/
theorem c10_nil_state_total :
    Drift.DetectPhase none = .ready ∧
    (Drift.DetectFromState none).allowed = true ∧
    (Drift.DetectFromState none).driftDetected = false := by
  decide

/-- C3 (failing-input evaluation): on an admission request whose parent fetch
fails transiently, the in-tree phase-1 handler returns an Allowed admission
response carrying the failure reason, not a fatal admission error: the
detector converts the store failure into a nil-error DriftResult whose
Allowed field is false, so the handler's HTTP-500 branch is unreachable and
the always-allow path returns Allowed. -/
theorem c3_store_failure_is_allowed (msg username : String) (childUpdaters : List String) :
    Admission.Handle .update .ok (.failed msg) username childUpdaters =
      { allowed := true, code := none, message := s!"failed to resolve parent: {msg}" } ∧
    Drift.DetectErr (.failed msg) username childUpdaters = none ∧
    (Drift.Detect (.failed msg) username childUpdaters).allowed = false := by
  exact ⟨rfl, rfl, rfl⟩

/-- C4: for every CREATE/UPDATE/DELETE mutation of a child whose parent
carries the freeze annotation, the decision pipeline denies with the freeze
message regardless of the drift outcome, the mode and the approval outcome;
the audit annotations carry decision=denied, the drift flag as detected and
the lifecycle phase, and the mode annotation is absent (freeze is evaluated
after drift detection and before mode resolution). -/
theorem c4_freeze_denies_mutation (op : Admission.Operation) (dr : Drift.DriftResult)
    (f : Admission.Freeze) (mode : Admission.Mode) (chk : Approval.CheckResult)
    (traceJSON : String) :
    Admission.pipelineDecision op dr (some f) mode chk traceJSON =
      { allowed := false
        message := Admission.freezeDenyMessage f
        warnings := []
        audit := { decision := some "denied"
                   drift := some (Admission.boolString dr.driftDetected)
                   mode := none
                   lifecyclePhase := dr.lifecyclePhase.map Admission.phaseAuditString
                   driftResolution := none
                   trace := none }
        hasPatch := false } := by
  rfl

/-- Parent state of the C7 counterexample: observed generation present and
behind the generation (reconciling), no controller hashes recorded. -/
def psC7 : Drift.ParentState :=
  { hasObservedGeneration := true, generation := 6, observedGeneration := 5, controllers := [] }

/-- C7 counterexample: with two child updater hashes and no parent controller
hashes, controller identity is undeterminable (isController = false,
canDetermine = false) while the parent has an observed generation, so the
claim (origin exactly when no parent, or not the controller, or stable
observed generation, or observed generation present with identity not
cross-validatable) demands a fresh origin; the code extends the parent trace
instead. -/
theorem c7_counterexample :
    ¬ (Trace.isOrigin (some psC7) "admin@example.com" ["h1", "h2"] = true ↔
        ((Drift.IsControllerByHash psC7 "admin@example.com" ["h1", "h2"]).1 = false ∨
         (psC7.hasObservedGeneration = true ∧ psC7.generation = psC7.observedGeneration) ∨
         (psC7.hasObservedGeneration = true ∧
           (Drift.IsControllerByHash psC7 "admin@example.com" ["h1", "h2"]).2 = false))) := by
  decide

/-- C7 (amended): the child starts a fresh 1-hop origin trace exactly when
there is no controlling parent; or controller identity is determinable and
the principal is not the controller; or identity is determinable, the
principal is the controller, and the parent observed generation is present
and equals its generation; or the parent has no observed generation and
identity is undeterminable. In particular, when the parent has an observed
generation and identity is undeterminable, the child extends the parent
trace (lenient), and without an observed generation an undeterminable
identity starts a fresh origin. -/
theorem c7_origin_decision_amended (ps? : Option Drift.ParentState) (username : String)
    (childUpdaters : List String) :
    Trace.isOrigin ps? username childUpdaters = true ↔
      (ps? = none ∨
       ∃ ps, ps? = some ps ∧
         (((Drift.IsControllerByHash ps username childUpdaters).2 = true ∧
           (Drift.IsControllerByHash ps username childUpdaters).1 = false) ∨
          ((Drift.IsControllerByHash ps username childUpdaters).2 = true ∧
           (Drift.IsControllerByHash ps username childUpdaters).1 = true ∧
           ps.hasObservedGeneration = true ∧ ps.generation = ps.observedGeneration) ∨
          ((Drift.IsControllerByHash ps username childUpdaters).2 = false ∧
           ps.hasObservedGeneration = false))) := by
  cases ps? with
  | none => simp [Trace.isOrigin]
  | some ps =>
    simp only [Trace.isOrigin, Option.some.injEq, reduceCtorEq, false_or]
    constructor
    · intro h
      refine ⟨ps, rfl, ?_⟩
      rcases hOG : ps.hasObservedGeneration with _ | _ <;>
        rcases h2 : (Drift.IsControllerByHash ps username childUpdaters).2 with _ | _ <;>
        rcases h1 : (Drift.IsControllerByHash ps username childUpdaters).1 with _ | _ <;>
        simp_all
    · rintro ⟨ps', rfl, h⟩
      rcases hOG : ps.hasObservedGeneration with _ | _ <;>
        rcases h2 : (Drift.IsControllerByHash ps username childUpdaters).2 with _ | _ <;>
        rcases h1 : (Drift.IsControllerByHash ps username childUpdaters).1 with _ | _ <;>
        simp_all

set_option maxRecDepth 100000 in
/-- C9 counterexample: the two source variants of GenerateResolutionID
disagree already at the empty object references, because the first variant
writes a null separator after the child name and the second does not. -/
theorem c9_counterexample :
    ¬ (Callback.GenerateResolutionID {} {} = Callback.GenerateResolutionID2 {} {}) := by
  decide

/-- The reference byte stream of the hashObjectRef loop equals the unrolled
stream of the second variant. -/
theorem refStreamLoop_eq_refStreamSep (r : Callback.ObjectReference) :
    Callback.refStreamLoop r = Callback.refStreamSep r := by
  simp [Callback.refStreamLoop, Callback.refStreamSep]

set_option maxRecDepth 100000 in
/-- C9 (amended): the two source variants of GenerateDriftID hash identical
byte streams and compute equal identifiers on every input; the two source
variants of GenerateResolutionID hash byte streams differing by the trailing
null separator after the child name, and disagree, as witnessed at the empty
references. -/
theorem c9_id_variants_amended (parent child : Callback.ObjectReference)
    (specDiff : List Nat) :
    Callback.GenerateDriftID parent child specDiff =
      Callback.GenerateDriftID2 parent child specDiff ∧
    Callback.GenerateResolutionID {} {} ≠ Callback.GenerateResolutionID2 {} {} := by
  constructor
  · unfold Callback.GenerateDriftID Callback.GenerateDriftID2
    rw [refStreamLoop_eq_refStreamSep, refStreamLoop_eq_refStreamSep]
  · decide

/-- C1: for every admission of a child whose controlling parent is resolved,
whose lifecycle phase is neither Deleting nor Initializing (that is, Ready),
and whose requesting principal is identified as the controller
(isController = true, canDetermine = true): when the parent generation
differs from its observed generation, the drift detector returns Allowed with
DriftDetected = false and the expected-change reason; when they are equal, it
returns DriftDetected = true. -/
theorem c1_controller_generation_check (ps : Drift.ParentState) (username : String)
    (childUpdaters : List String)
    (hphase : Drift.DetectPhase (some ps) = .ready)
    (hctrl : Drift.IsControllerByHash ps username childUpdaters = (true, true)) :
    (ps.generation ≠ ps.observedGeneration →
      Drift.Detect (.parent ps) username childUpdaters =
        { allowed := true
          driftDetected := false
          reason := Drift.expectedChangeReason ps.generation ps.observedGeneration
          lifecyclePhase := some .ready
          parentRef := some ps.ref }) ∧
    (ps.generation = ps.observedGeneration →
      (Drift.Detect (.parent ps) username childUpdaters).driftDetected = true) := by
  have hcl : Drift.checkLifecycle ps =
      ({ allowed := false, lifecyclePhase := some .ready, parentRef := some ps.ref }, false) := by
    unfold Drift.checkLifecycle
    rw [hphase]
  constructor
  · intro hne
    simp [Drift.Detect, hcl, hctrl, Drift.checkGeneration, hne]
  · intro heq
    simp [Drift.Detect, hcl, hctrl, Drift.checkGeneration, heq]

/-- Witness parent state for C1: ready (observed generation present), stable,
no recorded hashes. -/
def psC1 : Drift.ParentState :=
  { generation := 3, observedGeneration := 3, hasObservedGeneration := true }

/-- Witness for C1 at a concrete stable parent: the hypotheses hold and the
detector reports drift. -/
theorem c1_witness :
    Drift.DetectPhase (some psC1) = .ready ∧
    Drift.IsControllerByHash psC1 "controller-sa" [] = (true, true) ∧
    (Drift.Detect (.parent psC1) "controller-sa" []).driftDetected = true :=
  ⟨by decide, by decide,
    (c1_controller_generation_check psC1 "controller-sa" [] (by decide) (by decide)).2 (by decide)⟩

/-- Hash-list membership through ContainsHash. -/
theorem containsHash_iff_mem (l : List String) (h : String) :
    Controller.ContainsHash l h = true ↔ h ∈ l := by
  simp [Controller.ContainsHash, List.elem_iff]

/-- Membership in the hash-list intersection. -/
theorem mem_intersect_iff (a b : List String) (h : String) :
    h ∈ Controller.Intersect a b ↔ h ∈ a ∧ h ∈ b := by
  simp [Controller.Intersect, List.mem_filter, List.elem_iff]

/-- C2: IsControllerByHash implements the decision table of the spec over the
parent controller-hash list C, the child updater-hash list U and the hash h
of the requesting principal: non-empty C and U with non-empty intersection
decides by membership of h in the intersection; non-empty C with empty
intersection or empty U decides by membership in C; empty C with a single
updater compares h against it; empty C and U answers (true, true); empty C
with several updaters answers (false, false), the only undeterminable case. -/
theorem c2_is_controller_decision_table (ps : Drift.ParentState) (username : String)
    (childUpdaters : List String) :
    (ps.controllers ≠ [] → childUpdaters ≠ [] →
      Controller.Intersect childUpdaters ps.controllers ≠ [] →
      ((Drift.IsControllerByHash ps username childUpdaters).1 = true ↔
        (Controller.HashUsername username ∈ childUpdaters ∧
         Controller.HashUsername username ∈ ps.controllers)) ∧
      (Drift.IsControllerByHash ps username childUpdaters).2 = true) ∧
    (ps.controllers ≠ [] → childUpdaters ≠ [] →
      Controller.Intersect childUpdaters ps.controllers = [] →
      ((Drift.IsControllerByHash ps username childUpdaters).1 = true ↔
        Controller.HashUsername username ∈ ps.controllers) ∧
      (Drift.IsControllerByHash ps username childUpdaters).2 = true) ∧
    (ps.controllers ≠ [] → childUpdaters = [] →
      ((Drift.IsControllerByHash ps username childUpdaters).1 = true ↔
        Controller.HashUsername username ∈ ps.controllers) ∧
      (Drift.IsControllerByHash ps username childUpdaters).2 = true) ∧
    (ps.controllers = [] → ∀ u0, childUpdaters = [u0] →
      ((Drift.IsControllerByHash ps username childUpdaters).1 = true ↔
        Controller.HashUsername username = u0) ∧
      (Drift.IsControllerByHash ps username childUpdaters).2 = true) ∧
    (ps.controllers = [] → childUpdaters = [] →
      Drift.IsControllerByHash ps username childUpdaters = (true, true)) ∧
    (ps.controllers = [] → 1 < childUpdaters.length →
      Drift.IsControllerByHash ps username childUpdaters = (false, false)) := by
  refine ⟨?_, ?_, ?_, ?_, ?_, ?_⟩
  · intro hC hU hI
    have hCl : 0 < ps.controllers.length := List.length_pos.mpr hC
    have hUl : 0 < childUpdaters.length := List.length_pos.mpr hU
    have hIl : 0 < (Controller.Intersect childUpdaters ps.controllers).length :=
      List.length_pos.mpr hI
    simp [Drift.IsControllerByHash, hCl, hUl, hIl, containsHash_iff_mem, mem_intersect_iff]
  · intro hC hU hI
    have hCl : 0 < ps.controllers.length := List.length_pos.mpr hC
    have hUl : 0 < childUpdaters.length := List.length_pos.mpr hU
    simp [Drift.IsControllerByHash, hCl, hUl, hI, containsHash_iff_mem]
  · intro hC hU
    have hCl : 0 < ps.controllers.length := List.length_pos.mpr hC
    subst hU
    simp [Drift.IsControllerByHash, hCl, containsHash_iff_mem]
  · intro hC u0 hU
    subst hU
    simp [Drift.IsControllerByHash, hC]
  · intro hC hU
    subst hU
    simp [Drift.IsControllerByHash, hC]
  · intro hC hlen
    have h1 : ¬ (childUpdaters.length == 1) = true := by
      simp only [beq_iff_eq]
      omega
    have h0 : ¬ (childUpdaters.length == 0) = true := by
      simp only [beq_iff_eq]
      omega
    simp [Drift.IsControllerByHash, hC, h1, h0]

/-- Witness parent state for C2: no recorded controller hashes. -/
def psC2 : Drift.ParentState := {}

/-- Witness for C2: the empty-C, empty-U arm at a concrete input. -/
theorem c2_witness :
    psC2.controllers = [] ∧
    Drift.IsControllerByHash psC2 "creator" [] = (true, true) :=
  ⟨rfl, (c2_is_controller_decision_table psC2 "creator" []).2.2.2.2.1 rfl rfl⟩

/-- The claim-side matching predicate for an approval entry: the (kind, name)
pair equals the child (name possibly the wildcard), and the mode constrains
the generation: once and generation require equality with the current parent
generation, always matches any generation. -/
def approvalMatches (a : Approval.ApprovalEntry) (child : Approval.ChildRef) (g : Int) : Prop :=
  (a.kind = child.kind ∧ (a.name = child.name ∨ a.name = "*")) ∧
  (a.mode = .always ∨ ((a.mode = .once ∨ a.mode = .generation) ∧ a.generation = g))

/-- The claim-side matching predicate for a rejection entry: the (kind, name)
pair equals the child (name possibly the wildcard), and a specified
generation must equal the current parent generation. -/
def rejectionMatches (r : Approval.RejectionEntry) (child : Approval.ChildRef) (g : Int) : Prop :=
  (r.kind = child.kind ∧ (r.name = child.name ∨ r.name = "*")) ∧
  (r.generation = none ∨ r.generation = some g)

/-- The boolean approval filter agrees with the claim-side predicate. -/
theorem approval_filter_iff (a : Approval.ApprovalEntry) (child : Approval.ChildRef) (g : Int) :
    (Approval.matchesChild a.kind a.name child && Approval.approvalValid a g) = true ↔
      approvalMatches a child g := by
  rcases a with ⟨av, k, n, gen, m⟩
  cases m <;>
    simp [Approval.matchesChild, Approval.approvalValid, approvalMatches]

/-- The boolean rejection filter agrees with the claim-side predicate. -/
theorem rejection_filter_iff (r : Approval.RejectionEntry) (child : Approval.ChildRef) (g : Int) :
    (Approval.matchesChild r.kind r.name child && Approval.rejectionValid r g) = true ↔
      rejectionMatches r child g := by
  rcases r with ⟨av, k, n, gen, reason⟩
  cases gen <;>
    simp [Approval.matchesChild, Approval.rejectionValid, rejectionMatches]

/-- C5: for every approval list, rejection list, child reference and parent
generation, an entry matches the child exactly when its kind equals the child
kind and its name equals the child name or is the wildcard; approvals of mode
once or generation additionally require their generation to equal the current
parent generation while mode always matches any generation, and rejections
with a specified generation require it to equal the current parent
generation; and rejection wins over approval: whenever a rejection matches,
the result is rejected and not approved, and in the absence of a matching
rejection the result is approved exactly when an approval matches. -/
theorem c5_approval_rejection_resolution (approvals : List Approval.ApprovalEntry)
    (rejections : List Approval.RejectionEntry) (child : Approval.ChildRef) (g : Int) :
    ((∃ r ∈ rejections, rejectionMatches r child g) →
      (Approval.check approvals rejections child g).rejected = true ∧
      (Approval.check approvals rejections child g).approved = false) ∧
    ((¬ ∃ r ∈ rejections, rejectionMatches r child g) →
      (Approval.check approvals rejections child g).rejected = false ∧
      ((Approval.check approvals rejections child g).approved = true ↔
        ∃ a ∈ approvals, approvalMatches a child g)) := by
  have hrej : (Approval.findRejection rejections child g).isSome = true ↔
      ∃ r ∈ rejections, rejectionMatches r child g := by
    simp only [Approval.findRejection, List.find?_isSome]
    constructor
    · rintro ⟨r, hr, hp⟩
      exact ⟨r, hr, (rejection_filter_iff r child g).mp hp⟩
    · rintro ⟨r, hr, hp⟩
      exact ⟨r, hr, (rejection_filter_iff r child g).mpr hp⟩
  have happ : (Approval.findApproval approvals child g).isSome = true ↔
      ∃ a ∈ approvals, approvalMatches a child g := by
    simp only [Approval.findApproval, List.find?_isSome]
    constructor
    · rintro ⟨a, ha, hp⟩
      exact ⟨a, ha, (approval_filter_iff a child g).mp hp⟩
    · rintro ⟨a, ha, hp⟩
      exact ⟨a, ha, (approval_filter_iff a child g).mpr hp⟩
  constructor
  · intro hex
    have : (Approval.findRejection rejections child g).isSome = true := hrej.mpr hex
    rcases hfr : Approval.findRejection rejections child g with _ | r
    · rw [hfr] at this
      simp at this
    · simp [Approval.check, hfr]
  · intro hnex
    have hnone : Approval.findRejection rejections child g = none := by
      rcases hfr : Approval.findRejection rejections child g with _ | r
      · rfl
      · exact absurd (hrej.mp (by simp [hfr])) hnex
    rcases hfa : Approval.findApproval approvals child g with _ | a
    · constructor
      · simp [Approval.check, hnone, hfa]
      · rw [← happ, hfa]
        simp [Approval.check, hnone, hfa]
    · constructor
      · simp [Approval.check, hnone, hfa]
      · rw [← happ, hfa]
        simp [Approval.check, hnone, hfa]

/-- Witness child for C5. -/
def childC5 : Approval.ChildRef := ⟨"v1", "ConfigMap", "test-cm"⟩

/-- Witness for C5: rejection wins over a simultaneously matching approval at
a concrete input. -/
theorem c5_witness :
    (∃ r ∈ [({ kind := "ConfigMap", name := "test-cm", reason := "nope" } :
        Approval.RejectionEntry)], rejectionMatches r childC5 1) ∧
    (Approval.check [{ kind := "ConfigMap", name := "test-cm", mode := .always }]
        [{ kind := "ConfigMap", name := "test-cm", reason := "nope" }] childC5 1).rejected = true ∧
    (Approval.check [{ kind := "ConfigMap", name := "test-cm", mode := .always }]
        [{ kind := "ConfigMap", name := "test-cm", reason := "nope" }] childC5 1).approved = false := by
  have hex : ∃ r ∈ [({ kind := "ConfigMap", name := "test-cm", reason := "nope" } :
      Approval.RejectionEntry)], rejectionMatches r childC5 1 := by
    refine ⟨_, List.mem_singleton.mpr rfl, ?_⟩
    simp [rejectionMatches, childC5]
  have h := (c5_approval_rejection_resolution
    [{ kind := "ConfigMap", name := "test-cm", mode := .always }]
    [{ kind := "ConfigMap", name := "test-cm", reason := "nope" }] childC5 1).1 hex
  exact ⟨hex, h.1, h.2⟩

/-- The claim-side initialization signal of the lifecycle classifier: phase
annotation set, an Initialized or Ready condition with status True, or an
observed generation present. -/
def initSignal (ps : Drift.ParentState) : Prop :=
  ps.isInitialized = true ∨
  (∃ c ∈ ps.conditions, c.type = "Initialized" ∧ c.status = "True") ∨
  (∃ c ∈ ps.conditions, c.type = "Ready" ∧ c.status = "True") ∨
  ps.hasObservedGeneration = true

/-- C6: the lifecycle classifier is a pure function of the parent state: the
phase is Deleting exactly when the deletion timestamp is set (taking
precedence over all initialization signals); otherwise the phase is the
Ready/Initialized phase exactly when the phase annotation is set, an
Initialized or Ready condition with status True is present, or an observed
generation is present, and Initializing exactly otherwise (in particular a
Ready condition with status False does not count). -/
theorem c6_lifecycle_classifier (ps : Drift.ParentState) :
    (Drift.DetectPhase (some ps) = .deleting ↔ ps.hasDeletionTimestamp = true) ∧
    (ps.hasDeletionTimestamp = false →
      ((Drift.DetectPhase (some ps) = .ready ↔ initSignal ps) ∧
       (Drift.DetectPhase (some ps) = .initializing ↔ ¬ initSignal ps))) := by
  have hsig : (ps.isInitialized
      || ps.conditions.any (fun c => c.type == "Initialized" && c.status == "True")
      || ps.conditions.any (fun c => c.type == "Ready" && c.status == "True")
      || ps.hasObservedGeneration) = true ↔ initSignal ps := by
    simp [initSignal, List.any_eq_true, or_assoc]
  rcases hdel : ps.hasDeletionTimestamp with _ | _
  · refine ⟨by simp [Drift.DetectPhase, hdel]; split <;> simp, fun _ => ?_⟩
    rcases hb : (ps.isInitialized
        || ps.conditions.any (fun c => c.type == "Initialized" && c.status == "True")
        || ps.conditions.any (fun c => c.type == "Ready" && c.status == "True")
        || ps.hasObservedGeneration) with _ | _
    · rw [← hsig, hb]
      simp [Drift.DetectPhase, hdel, hb]
    · rw [← hsig, hb]
      simp [Drift.DetectPhase, hdel, hb]
  · simp [Drift.DetectPhase, hdel]

/-- Witness parent state for C6: a single Ready condition with status False. -/
def psC6 : Drift.ParentState := { conditions := [⟨"Ready", "False"⟩] }

/-- Witness for C6: at a concrete state with only a Ready=False condition the
hypothesis holds and the classifier answers Initializing. -/
theorem c6_witness :
    psC6.hasDeletionTimestamp = false ∧
    (Drift.DetectPhase (some psC6) = .initializing ↔ ¬ initSignal psC6) :=
  ⟨rfl, ((c6_lifecycle_classifier psC6).2 rfl).2⟩

/-- Lookup after insert-or-replace at the same key. -/
theorem lookupId_insertId_self (m : List (String × Int)) (id : String) (v : Int) :
    Callback.lookupId (Callback.insertId m id v) id = some v := by
  induction m with
  | nil => simp [Callback.insertId, Callback.lookupId]
  | cons p rest ih =>
    by_cases hp : p.1 = id
    · simp [Callback.insertId, Callback.lookupId, hp]
    · simp only [Callback.insertId, Callback.lookupId] at *
      rw [if_neg (by simp [hp])]
      simp only [List.find?]
      rw [show (p.1 == id) = false from by simp [hp]]
      exact ih

/-- Lookup after removal at the same key. -/
theorem lookupId_eraseId_self (m : List (String × Int)) (id : String) :
    Callback.lookupId (Callback.eraseId m id) id = none := by
  induction m with
  | nil => simp [Callback.eraseId, Callback.lookupId]
  | cons p rest ih =>
    by_cases hp : p.1 = id
    · simp only [Callback.eraseId, Callback.lookupId, hp] at *
      simp [hp, ih]
    · simp only [Callback.eraseId, List.filter] at *
      rw [show (!(p.1 == id)) = true from by simp [hp]]
      simp only [Callback.lookupId, List.find?] at *
      rw [show (p.1 == id) = false from by simp [hp]]
      exact ih

/-- C8: for every tracker state not currently tracking an identifier, a first
Detected notification is emitted and a second Detected for the same
identifier within the TTL is suppressed (exactly one outbound notification);
a Resolved notification is never suppressed, always emits, and clears the
tracker entry, so a subsequent Detected for the same identifier is emitted
again; the default TTL is 10 minutes. -/
theorem c8_dedup_tracker (t : Callback.Tracker) (now1 now2 now3 : Int) (id : String)
    (hfree : Callback.lookupId t.ids id = none) :
    (Callback.send t now1 id .detected).1 = true ∧
    (now2 < now1 + t.ttl →
      (Callback.send (Callback.send t now1 id .detected).2 now2 id .detected).1 = false) ∧
    (∀ t' : Callback.Tracker,
      (Callback.send t' now2 id .resolved).1 = true ∧
      Callback.lookupId ((Callback.send t' now2 id .resolved).2).ids id = none) ∧
    (∀ t' : Callback.Tracker,
      (Callback.send ((Callback.send t' now2 id .resolved).2) now3 id .detected).1 = true) ∧
    Callback.DefaultTTL = 10 * 60 * 1000000000 := by
  refine ⟨?_, ?_, ?_, ?_, by decide⟩
  · simp [Callback.send, Callback.Tracker.track, hfree]
  · intro hlt
    simp only [Callback.send, Callback.Tracker.track, hfree]
    rw [lookupId_insertId_self]
    simp [hlt]
  · intro t'
    refine ⟨rfl, ?_⟩
    simp [Callback.send, Callback.Tracker.remove, lookupId_eraseId_self]
  · intro t'
    simp [Callback.send, Callback.Tracker.remove, Callback.Tracker.track,
      lookupId_eraseId_self]

/-- Witness for C8: on a freshly created tracker with the default TTL, the
first Detected at time 0 emits and the second at time 1 is suppressed. -/
theorem c8_witness :
    Callback.lookupId (Callback.Tracker.mk [] Callback.DefaultTTL).ids "drift-1" = none ∧
    (1 : Int) < 0 + (Callback.Tracker.mk [] Callback.DefaultTTL).ttl ∧
    (Callback.send (Callback.Tracker.mk [] Callback.DefaultTTL) 0 "drift-1" .detected).1 = true ∧
    (Callback.send (Callback.send (Callback.Tracker.mk [] Callback.DefaultTTL) 0 "drift-1"
        .detected).2 1 "drift-1" .detected).1 = false := by
  refine ⟨by decide, by decide, ?_, ?_⟩
  · exact (c8_dedup_tracker (Callback.Tracker.mk [] Callback.DefaultTTL) 0 1 2 "drift-1"
      (by decide)).1
  · exact (c8_dedup_tracker (Callback.Tracker.mk [] Callback.DefaultTTL) 0 1 2 "drift-1"
      (by decide)).2.1 (by decide)

end Kausality
